import Mathlib

/-!
Verification of `SQATestSuiteInterface`
(`ingestion/src/metadata/data_quality/interface/sqlalchemy/sqa_test_suite_interface.py`).

The Python class is shallowly embedded: each method becomes an explicit
Lean function, Python exceptions become an `Except PyErr` result, the
mutation of the `test_case` argument becomes explicit state passing, and
the side effects that the claims talk about (log lines, opened and closed
database sessions, which internal steps actually ran) are returned as
data.  External collaborators that are not part of the analysed file
(catalog client, validator classes, sampler factory, timeout wrapper) are
parameters of the embedding; the few whose behaviour decides a claim and
whose code is not available are modelled from the specification and say so
in their doc comments.
-/

namespace SQATestSuite

/-- Error values standing for the Python exception types that appear in the
source file and in the specification error taxonomy (section 7).
`runtimeError` is Python `RuntimeError(err)` wrapping a caught exception as
its cause (line 192 of the source); `runtimeErrorMsg` is `RuntimeError`
raised with a plain message (line 85).  `invalidStateError` is the error the
specification names for calls on a closed instance; it exists here so the
statement can be expressed, the source never raises it. -/
inductive PyErr where
  | connectionError : PyErr
  | unsupportedDialectError : PyErr
  | resolutionError (msg : String) : PyErr
  | parameterResolutionError (msg : String) : PyErr
  | timeoutError : PyErr
  | validatorError (msg : String) : PyErr
  | invalidStateError : PyErr
  | runtimeErrorMsg (msg : String) : PyErr
  | runtimeError (cause : PyErr) : PyErr
  deriving DecidableEq, Repr

/-- String rendering of an error, standing for Python `str(err)` as used in
the f-string log message on line 190. -/
def pyErrStr : PyErr → String
  | PyErr.connectionError => "ConnectionError"
  | PyErr.unsupportedDialectError => "UnsupportedDialectError"
  | PyErr.resolutionError m => "ResolutionError: " ++ m
  | PyErr.parameterResolutionError m => "ParameterResolutionError: " ++ m
  | PyErr.timeoutError => "TimeoutError"
  | PyErr.validatorError m => "ValidatorError: " ++ m
  | PyErr.invalidStateError => "InvalidStateError"
  | PyErr.runtimeErrorMsg m => "RuntimeError: " ++ m
  | PyErr.runtimeError c => "RuntimeError: " ++ pyErrStr c

/-- Rows of a drawn table sample; the concrete row content is irrelevant to
the claims, a row is abstracted to a number. -/
abbrev Sample := List Nat

/-- The queryable ORM object produced by `_convert_table_to_orm_object`. -/
structure Table where
  name : String
  deriving DecidableEq, Repr

/-- A live database session as returned by `create_and_bind_session`
(line 73).  `isOpen` records whether the session has been released. -/
structure Session where
  sid : Nat
  isOpen : Bool
  deriving DecidableEq, Repr

/-- Ledger of session side effects, used to state the resource claims:
how many sessions were opened and how many were released. -/
structure World where
  openedSessions : Nat
  closedSessions : Nat
  deriving DecidableEq, Repr

/-- The triple returned by `_get_table_config` (lines 63 to 67):
sample query override, sample config, partition config. -/
structure TableConfig where
  table_sample_query : Option String
  table_sample_config : Option String
  table_partition_config : Option String
  deriving DecidableEq, Repr

/-- Modelled from the spec: `SQASampler` (profiler sampler, not under the
analysed sources).  Section 4.2 of the spec: `randomSample()` "constructs
(once) the sampled subset" and section 3: "random sample is drawn once, not
per test case".  `draws` is the dialect-specific stream of fresh draws,
`drawCount` counts how many fresh draws happened, `cached` holds the sample
once drawn. -/
structure SQASampler where
  draws : Nat → Sample
  drawCount : Nat
  cached : Option Sample

/-- Modelled from the spec: `SQASampler.random_sample` — the first call
draws the subset and caches it, every later call returns the cached
subset unchanged (spec section 4.2: constructs once; section 5: the sample
is computed once and read-only thereafter). -/
def random_sample (s : SQASampler) : Sample × SQASampler :=
  match s.cached with
  | some smp => (smp, s)
  | none =>
      (s.draws s.drawCount,
       { s with drawCount := s.drawCount + 1, cached := some (s.draws s.drawCount) })

/-- The `QueryRunner` built on lines 137 to 143, before the timeout wrapper
is applied. -/
structure QueryRunner where
  session : Session
  table : Table
  sample : Sample
  partition_details : Option String
  profile_sample_query : Option String

/-- The runner after `cls_timeout(TEN_MIN)` wraps it (line 136): the same
runner plus the wall-clock bound applied to every call. -/
structure BoundedRunner where
  runner : QueryRunner
  timeoutSeconds : Nat

/-- Modelled from the spec: `TEN_MIN` from `metadata.utils.constants` (not
under the analysed sources); the spec states a ten-minute wall-clock
default, in seconds. -/
def TEN_MIN : Nat := 10 * 60

/-- Modelled from the spec: `cls_timeout` from `metadata.utils.timeout`
(not under the analysed sources); it wraps an object so that every call on
it is bounded by the given wall-clock duration. -/
def cls_timeout (seconds : Nat) (q : QueryRunner) : BoundedRunner :=
  { runner := q, timeoutSeconds := seconds }

/-- A query issued through the bounded runner: its wall-clock duration and
the value it would produce. -/
structure Query where
  duration : Nat
  value : Int
  deriving DecidableEq, Repr

/-- Modelled from the spec: a call through the timeout-wrapped runner
(spec section 4.3): if the call exceeds the bound it fails with
`TimeoutError` and returns no partial result, otherwise the value. -/
def execute_call (r : BoundedRunner) (q : Query) : Except PyErr Int :=
  if r.timeoutSeconds < q.duration then Except.error PyErr.timeoutError
  else Except.ok q.value

/-- One `name`/`value` entry of a test case parameter set
(`TestCaseParameterValue`). -/
structure TestCaseParameterValue where
  name : String
  value : String
  deriving DecidableEq, Repr

/-- A test case: the referenced test definition (id and fully-qualified
name, as read on lines 162 and 165) and its parameter entries. -/
structure TestCase where
  testDefinitionId : Nat
  testDefinitionFQN : String
  parameterValues : List TestCaseParameterValue
  deriving DecidableEq, Repr

/-- A test definition fetched from the catalog; only its entity type is
read by `run_test_case` (line 163). -/
structure TestDefinition where
  entityType : String
  deriving DecidableEq, Repr

/-- Result of a validation run (`TestCaseResult`). -/
structure TestCaseResult where
  status : String
  deriving DecidableEq, Repr

/-- A constructed validator instance; running it yields a result or
raises. -/
structure Validator where
  run_validation : Except PyErr TestCaseResult

/-- A resolved validator class: the optional runtime parameter setter
(line 168; `get_parameters` composed with serialization, lines 175 and
178) and the constructor taking the runner, the test case and the
execution timestamp (lines 182 to 186). -/
structure TestHandlerCls where
  runtime_parameter_setter : Option (TestCase → Except PyErr String)
  construct : Option BoundedRunner → TestCase → Nat → Except PyErr Validator

/-- The interface object state after (or during) construction.  `_sampler`
and `_runner` are optional so that states where they were never created are
expressible (the `sample` accessor guards exactly that, lines 84 to 87). -/
structure Interface where
  session : Session
  _table : Table
  config : TableConfig
  _sampler : Option SQASampler
  _runner : Option BoundedRunner

/-- Append of the runtime parameter entry (lines 176 to 180):
`test_case.parameterValues.append(TestCaseParameterValue(name="runtimeParams", value=...))`. -/
def augmentTestCase (tc : TestCase) (json : String) : TestCase :=
  { tc with
    parameterValues :=
      tc.parameterValues ++ [{ name := "runtimeParams", value := json }] }

/-- Number of parameter entries of a test case named `runtimeParams`. -/
def countRuntimeParams (tc : TestCase) : Nat :=
  (tc.parameterValues.filter (fun p => p.name == "runtimeParams")).length

/-- Observable internal steps of one `run_test_case` call, so the claims
about what did or did not happen (setter ran, validator constructed with
which test case, validation ran) can be stated. -/
inductive Event where
  | resolvedHandler : Event
  | ranSetter : Event
  | appendedParams : Event
  | constructedValidator (tc : TestCase) (ts : Nat) : Event
  | ranValidation : Event
  deriving DecidableEq, Repr

/-- External collaborators used by `run_test_case`: the catalog client
lookup (`ometa_client.get_by_id`, line 161), the dynamic validator class
resolution (`metadata.utils.importer.import_test_case_class`, line 160),
and the execution timestamp taken on line 185. -/
structure RunEnv where
  get_by_id : Nat → Except PyErr TestDefinition
  test_case_class_importer : String → String → String → Except PyErr TestHandlerCls
  now : Nat

/-- Tail of the `try` block of `run_test_case`: construct the validator
bound to the runner and the timestamp (lines 182 to 186) and invoke
`run_validation` (line 187).  Returns the result, the test case as the
caller now sees it, and the recorded events. -/
def construct_and_validate (i : Interface) (env : RunEnv) (handler : TestHandlerCls)
    (tc : TestCase) (ev : List Event) :
    Except PyErr TestCaseResult × TestCase × List Event :=
  match handler.construct i._runner tc env.now with
  | Except.error e => (Except.error e, tc, ev)
  | Except.ok v =>
      match v.run_validation with
      | Except.error e =>
          (Except.error e, tc,
           ev ++ [Event.constructedValidator tc env.now, Event.ranValidation])
      | Except.ok r =>
          (Except.ok r, tc,
           ev ++ [Event.constructedValidator tc env.now, Event.ranValidation])

/-- Body of the `try` block of `run_test_case` (lines 159 to 187): fetch
the test definition, resolve the validator class, optionally compute and
append the runtime parameters, then construct and run the validator. -/
def run_test_case_body (i : Interface) (env : RunEnv) (tc : TestCase) :
    Except PyErr TestCaseResult × TestCase × List Event :=
  match env.get_by_id tc.testDefinitionId with
  | Except.error e => (Except.error e, tc, [])
  | Except.ok td =>
      match env.test_case_class_importer td.entityType "sqlalchemy" tc.testDefinitionFQN with
      | Except.error e => (Except.error e, tc, [])
      | Except.ok handler =>
          match handler.runtime_parameter_setter with
          | some get_parameters =>
              match get_parameters tc with
              | Except.error e =>
                  (Except.error e, tc, [Event.resolvedHandler, Event.ranSetter])
              | Except.ok json =>
                  construct_and_validate i env handler (augmentTestCase tc json)
                    [Event.resolvedHandler, Event.ranSetter, Event.appendedParams]
          | none => construct_and_validate i env handler tc [Event.resolvedHandler]

/-- Everything one `run_test_case` call produces: the returned value or
raised error, the log lines emitted, the test case object as the caller
sees it afterwards, the recorded events, and the interface object (which
`run_test_case` never reassigns). -/
structure RunOutcome where
  result : Except PyErr TestCaseResult
  log : List String
  test_case : TestCase
  events : List Event
  iface : Interface

/-- The `run_test_case` method (lines 146 to 192): run the body; on any
exception, log the fully-qualified name of the test with the error
(lines 189 to 191) and re-raise `RuntimeError(err)` (line 192). -/
def run_test_case (i : Interface) (env : RunEnv) (tc : TestCase) : RunOutcome :=
  match run_test_case_body i env tc with
  | (Except.ok r, tc1, ev) =>
      { result := Except.ok r, log := [], test_case := tc1, events := ev, iface := i }
  | (Except.error e, tc1, ev) =>
      { result := Except.error (PyErr.runtimeError e),
        log := ["Error executing " ++ tc.testDefinitionFQN ++ " - " ++ pyErrStr e],
        test_case := tc1, events := ev, iface := i }

/-- The `sample` property (lines 77 to 89): raise `RuntimeError` when no
sampler exists, otherwise return `self.sampler.random_sample()`.  The
(possibly updated) sampler state is returned alongside. -/
def sample_prop (i : Interface) : Except PyErr Sample × Interface :=
  match i._sampler with
  | none =>
      (Except.error (PyErr.runtimeErrorMsg
        "You must create a sampler first <instance>.create_sampler(...)."), i)
  | some s =>
      match random_sample s with
      | (smp, s2) => (Except.ok smp, { i with _sampler := some s2 })

/-- Repeated accesses to the `sample` property: `sample_iter i n` is the
outcome of the access after `n` earlier accesses, each threading the
sampler state of the previous one. -/
def sample_iter (i : Interface) : Nat → Except PyErr Sample × Interface
  | 0 => sample_prop i
  | n + 1 => sample_prop (sample_iter i n).2

/-- External collaborators used by `__init__` (lines 50 to 70): opening
the session (`get_ssl_connection` plus `create_and_bind_session`, which the
spec section 4.1 has fail with `ConnectionError`), resolving the table to
its ORM object, resolving the table config, and the sampler factory
(`sampler_factory_.create`, which the spec section 4.2 has fail with
`UnsupportedDialectError`); the factory yields the dialect-specific draw
stream of the new sampler. -/
structure ConstructEnv where
  create_and_bind_session : Except PyErr Session
  convert_table_to_orm_object : Table
  get_table_config : TableConfig
  sampler_factory_create : Session → Table → TableConfig → Except PyErr (Nat → Sample)

/-- The constructor `__init__` (lines 50 to 70): open the session, resolve
the table, resolve the config, build the sampler, then build the runner —
`_create_runner` (lines 133 to 144) evaluates `self.sample`, which performs
the first (and only) fresh draw, and wraps the `QueryRunner` in
`cls_timeout(TEN_MIN)`.  Returns the constructed instance or the raised
error, together with the session ledger: an exception raised after the
session was opened leaves it opened and unreleased, exactly as the Python
code does (no handler around lines 61 to 70). -/
def construct (env : ConstructEnv) : Except PyErr Interface × World :=
  match env.create_and_bind_session with
  | Except.error e => (Except.error e, { openedSessions := 0, closedSessions := 0 })
  | Except.ok session =>
      let w : World := { openedSessions := 1, closedSessions := 0 }
      let table := env.convert_table_to_orm_object
      let cfg := env.get_table_config
      match env.sampler_factory_create session table cfg with
      | Except.error e => (Except.error e, w)
      | Except.ok draws =>
          let sampler0 : SQASampler := { draws := draws, drawCount := 0, cached := none }
          match random_sample sampler0 with
          | (smp, sampler1) =>
              let runner := cls_timeout TEN_MIN
                { session := session, table := table, sample := smp,
                  partition_details := cfg.table_partition_config,
                  profile_sample_query := cfg.table_sample_query }
              (Except.ok
                { session := session, _table := table, config := cfg,
                  _sampler := some sampler1, _runner := some runner }, w)

/-- Modelled from the spec: interface teardown (`close` on the shared
mixin, not under the analysed sources; spec section 4.1: the session is
explicitly closed on teardown).  Releases the session and records it in
the ledger. -/
def close_interface (i : Interface) (w : World) : Interface × World :=
  ({ i with session := { i.session with isOpen := false } },
   { w with closedSessions := w.closedSessions + 1 })

end SQATestSuite

namespace SQATestSuite

/-- The second component of `construct_and_validate` is always the test
case it was given: lines 182 to 187 never touch `parameterValues`. -/
lemma construct_and_validate_test_case (i : Interface) (env : RunEnv)
    (handler : TestHandlerCls) (tc : TestCase) (ev : List Event) :
    (construct_and_validate i env handler tc ev).2.1 = tc := by
  unfold construct_and_validate
  rcases hc : handler.construct i._runner tc env.now with e | v
  · simp [hc]
  · rcases hv : v.run_validation with e | r <;> simp [hc, hv]

/-- The test case returned to the caller by `run_test_case` is the one the
body left behind, on the success path and on the error path alike. -/
lemma run_test_case_test_case_eq (i : Interface) (env : RunEnv) (tc : TestCase) :
    (run_test_case i env tc).test_case = (run_test_case_body i env tc).2.1 := by
  unfold run_test_case
  rcases hb : run_test_case_body i env tc with ⟨res, tc1, ev⟩
  cases res <;> simp [hb]

/-- The events of a `run_test_case` call are those of its body. -/
lemma run_test_case_events_eq (i : Interface) (env : RunEnv) (tc : TestCase) :
    (run_test_case i env tc).events = (run_test_case_body i env tc).2.2 := by
  unfold run_test_case
  rcases hb : run_test_case_body i env tc with ⟨res, tc1, ev⟩
  cases res <;> simp [hb]

/-- The method `run_test_case` never reassigns any attribute of the
interface object. -/
lemma run_test_case_iface_eq (i : Interface) (env : RunEnv) (tc : TestCase) :
    (run_test_case i env tc).iface = i := by
  unfold run_test_case
  rcases hb : run_test_case_body i env tc with ⟨res, tc1, ev⟩
  cases res <;> simp [hb]

/-- When the body raises, `run_test_case` re-raises the uniform wrapper
and emits the log line with the fully-qualified name. -/
lemma run_test_case_of_body_error (i : Interface) (env : RunEnv) (tc : TestCase)
    (e : PyErr) (h : (run_test_case_body i env tc).1 = Except.error e) :
    (run_test_case i env tc).result = Except.error (PyErr.runtimeError e) ∧
    (run_test_case i env tc).log =
      ["Error executing " ++ tc.testDefinitionFQN ++ " - " ++ pyErrStr e] := by
  unfold run_test_case
  rcases hb : run_test_case_body i env tc with ⟨res, tc1, ev⟩
  rw [hb] at h
  cases res with
  | error e0 => cases h; simp [hb]
  | ok r => simp at h

/-- When the body returns a result, `run_test_case` returns it unchanged
with no log line. -/
lemma run_test_case_of_body_ok (i : Interface) (env : RunEnv) (tc : TestCase)
    (r : TestCaseResult) (h : (run_test_case_body i env tc).1 = Except.ok r) :
    (run_test_case i env tc).result = Except.ok r ∧
    (run_test_case i env tc).log = [] := by
  unfold run_test_case
  rcases hb : run_test_case_body i env tc with ⟨res, tc1, ev⟩
  rw [hb] at h
  cases res with
  | error e0 => simp at h
  | ok r0 => cases h; simp [hb]

/-- C1: every exception raised inside `run_test_case` (test-definition
lookup, validator resolution, runtime-parameter computation, timeout or
validator-internal error — everything in the `try` body) is caught, a
message containing the fully-qualified name of the test case is logged,
and the single uniform wrapper `RuntimeError` carrying the original
exception is raised; no other error shape ever escapes the call. -/
theorem c1_run_test_case_uniform_error (i : Interface) (env : RunEnv) (tc : TestCase) :
    (∀ e, (run_test_case_body i env tc).1 = Except.error e →
        (run_test_case i env tc).result = Except.error (PyErr.runtimeError e) ∧
        (run_test_case i env tc).log =
          ["Error executing " ++ tc.testDefinitionFQN ++ " - " ++ pyErrStr e]) ∧
    (∀ e2, (run_test_case i env tc).result = Except.error e2 →
        ∃ c, e2 = PyErr.runtimeError c ∧
          (run_test_case_body i env tc).1 = Except.error c) := by
  constructor
  · intro e he
    exact run_test_case_of_body_error i env tc e he
  · intro e2 he2
    unfold run_test_case at he2
    rcases hb : run_test_case_body i env tc with ⟨res, tc1, ev⟩
    rw [hb] at he2
    cases res with
    | error e0 =>
        simp at he2
        exact ⟨e0, he2.symm, by simp [hb]⟩
    | ok r => simp at he2

/-- Concrete instantiation of the C1 theorem: an interface, a catalog that
resolves the definition, and a validator resolution that fails. -/
def tcW : TestCase :=
  { testDefinitionId := 0, testDefinitionFQN := "dq.tableRowCount",
    parameterValues := [{ name := "minCount", value := "10" }] }

/-- Interface state with no sampler and no runner (as before
`_create_sampler` has run). -/
def ifaceBare : Interface :=
  { session := { sid := 0, isOpen := true },
    _table := { name := "orders" },
    config := { table_sample_query := none, table_sample_config := none,
                table_partition_config := none },
    _sampler := none, _runner := none }

/-- Catalog and resolver where the validator class lookup fails. -/
def envFailResolve : RunEnv :=
  { get_by_id := fun _ => Except.ok { entityType := "TABLE" },
    test_case_class_importer := fun _ _ _ =>
      Except.error (PyErr.resolutionError "no validator"),
    now := 1000 }

/-- Witness for C1 at a concrete failing resolution. -/
theorem c1_witness :
    (run_test_case ifaceBare envFailResolve tcW).result
      = Except.error (PyErr.runtimeError (PyErr.resolutionError "no validator")) ∧
    (run_test_case ifaceBare envFailResolve tcW).log
      = ["Error executing " ++ tcW.testDefinitionFQN ++ " - "
          ++ pyErrStr (PyErr.resolutionError "no validator")] :=
  (c1_run_test_case_uniform_error ifaceBare envFailResolve tcW).1
    (PyErr.resolutionError "no validator") (by rfl)

/-- C7: on an interface whose sampler was never created, the `sample`
accessor raises `RuntimeError`; it never returns any sample, and the state
is untouched. -/
theorem c7_sample_raises_without_sampler (i : Interface) (h : i._sampler = none) :
    (sample_prop i).1 = Except.error (PyErr.runtimeErrorMsg
      "You must create a sampler first <instance>.create_sampler(...).") ∧
    (∀ smp, (sample_prop i).1 ≠ Except.ok smp) ∧
    (sample_prop i).2 = i := by
  unfold sample_prop
  rw [h]
  exact ⟨rfl, fun smp hs => by simp at hs, rfl⟩

/-- Witness for C7 on a concrete sampler-less interface. -/
theorem c7_witness :
    (sample_prop ifaceBare).1 = Except.error (PyErr.runtimeErrorMsg
      "You must create a sampler first <instance>.create_sampler(...).") ∧
    (∀ smp, (sample_prop ifaceBare).1 ≠ Except.ok smp) ∧
    (sample_prop ifaceBare).2 = ifaceBare :=
  c7_sample_raises_without_sampler ifaceBare (by rfl)

end SQATestSuite

namespace SQATestSuite

/-- When lookup and resolution succeed and the setter returns, the body of
`run_test_case` proceeds to validator construction with the augmented test
case (lines 168 to 187). -/
lemma run_test_case_body_setter_ok (i : Interface) (env : RunEnv) (tc : TestCase)
    (td : TestDefinition) (handler : TestHandlerCls)
    (f : TestCase → Except PyErr String) (json : String)
    (h1 : env.get_by_id tc.testDefinitionId = Except.ok td)
    (h2 : env.test_case_class_importer td.entityType "sqlalchemy"
            tc.testDefinitionFQN = Except.ok handler)
    (h3 : handler.runtime_parameter_setter = some f)
    (h4 : f tc = Except.ok json) :
    run_test_case_body i env tc
      = construct_and_validate i env handler (augmentTestCase tc json)
          [Event.resolvedHandler, Event.ranSetter, Event.appendedParams] := by
  simp [run_test_case_body, h1, h2, h3, h4]

/-- When lookup and resolution succeed but the setter raises, the body of
`run_test_case` stops there: the raised error is the outcome and the test
case is untouched. -/
lemma run_test_case_body_setter_error (i : Interface) (env : RunEnv) (tc : TestCase)
    (td : TestDefinition) (handler : TestHandlerCls)
    (f : TestCase → Except PyErr String) (e : PyErr)
    (h1 : env.get_by_id tc.testDefinitionId = Except.ok td)
    (h2 : env.test_case_class_importer td.entityType "sqlalchemy"
            tc.testDefinitionFQN = Except.ok handler)
    (h3 : handler.runtime_parameter_setter = some f)
    (h4 : f tc = Except.error e) :
    run_test_case_body i env tc
      = (Except.error e, tc, [Event.resolvedHandler, Event.ranSetter]) := by
  simp [run_test_case_body, h1, h2, h3, h4]

/-- Appending the runtime parameter entry adds exactly one entry named
`runtimeParams`. -/
lemma countRuntimeParams_augment (tc : TestCase) (json : String) :
    countRuntimeParams (augmentTestCase tc json) = countRuntimeParams tc + 1 := by
  simp [countRuntimeParams, augmentTestCase, List.filter_append]

/-- The events of `construct_and_validate` either stop at the given prefix
(construction failed) or record the constructed validator with exactly the
test case and timestamp it received, followed by the validation run. -/
lemma construct_and_validate_events (i : Interface) (env : RunEnv)
    (handler : TestHandlerCls) (tc : TestCase) (ev : List Event) :
    (construct_and_validate i env handler tc ev).2.2 = ev ∨
    (construct_and_validate i env handler tc ev).2.2
      = ev ++ [Event.constructedValidator tc env.now, Event.ranValidation] := by
  unfold construct_and_validate
  rcases hc : handler.construct i._runner tc env.now with e | v
  · left; simp [hc]
  · rcases hv : v.run_validation with e | r
    · right; simp [hc, hv]
    · right; simp [hc, hv]

/-- C3: when the resolved validator class declares a runtime parameter
setter, exactly one `runtimeParams` entry is appended to the test case
before validator construction, and every validator that gets constructed
receives exactly the augmented test case; if the setter raises, no
validator is constructed, nothing is validated, and the raised error is
re-raised in the uniform wrapper. -/
theorem c3_runtime_params_before_validator (i : Interface) (env : RunEnv)
    (tc : TestCase) (td : TestDefinition) (handler : TestHandlerCls)
    (f : TestCase → Except PyErr String)
    (h1 : env.get_by_id tc.testDefinitionId = Except.ok td)
    (h2 : env.test_case_class_importer td.entityType "sqlalchemy"
            tc.testDefinitionFQN = Except.ok handler)
    (h3 : handler.runtime_parameter_setter = some f) :
    (∀ e, f tc = Except.error e →
        (run_test_case i env tc).result = Except.error (PyErr.runtimeError e) ∧
        (∀ tc2 n, Event.constructedValidator tc2 n ∉ (run_test_case i env tc).events) ∧
        Event.ranValidation ∉ (run_test_case i env tc).events) ∧
    (∀ json, f tc = Except.ok json →
        (run_test_case i env tc).test_case = augmentTestCase tc json ∧
        countRuntimeParams (augmentTestCase tc json) = countRuntimeParams tc + 1 ∧
        (∀ tc2 n, Event.constructedValidator tc2 n ∈ (run_test_case i env tc).events →
            tc2 = augmentTestCase tc json ∧ n = env.now)) := by
  constructor
  · intro e he
    have hb := run_test_case_body_setter_error i env tc td handler f e h1 h2 h3 he
    refine ⟨(run_test_case_of_body_error i env tc e (by rw [hb])).1, ?_, ?_⟩
    · intro tc2 n
      rw [run_test_case_events_eq, hb]
      simp
    · rw [run_test_case_events_eq, hb]
      simp
  · intro json hj
    have hb := run_test_case_body_setter_ok i env tc td handler f json h1 h2 h3 hj
    refine ⟨?_, countRuntimeParams_augment tc json, ?_⟩
    · rw [run_test_case_test_case_eq, hb, construct_and_validate_test_case]
    · intro tc2 n hmem
      rw [run_test_case_events_eq, hb] at hmem
      rcases construct_and_validate_events i env handler (augmentTestCase tc json)
          [Event.resolvedHandler, Event.ranSetter, Event.appendedParams] with hev | hev
      · rw [hev] at hmem
        simp at hmem
      · rw [hev] at hmem
        simp at hmem
        exact hmem

/-- A validator class whose setter and construction and validation all
succeed. -/
def handlerOk : TestHandlerCls :=
  { runtime_parameter_setter := some (fun _ => Except.ok "42"),
    construct := fun _ _ _ =>
      Except.ok { run_validation := Except.ok { status := "Success" } } }

/-- Catalog and resolver where everything resolves to `handlerOk`. -/
def envOk : RunEnv :=
  { get_by_id := fun _ => Except.ok { entityType := "TABLE" },
    test_case_class_importer := fun _ _ _ => Except.ok handlerOk,
    now := 1000 }

/-- Witness for C3 on a concrete run whose setter succeeds. -/
theorem c3_witness :
    (run_test_case ifaceBare envOk tcW).test_case = augmentTestCase tcW "42" ∧
    countRuntimeParams (augmentTestCase tcW "42") = countRuntimeParams tcW + 1 ∧
    (∀ tc2 n, Event.constructedValidator tc2 n ∈ (run_test_case ifaceBare envOk tcW).events →
        tc2 = augmentTestCase tcW "42" ∧ n = envOk.now) :=
  (c3_runtime_params_before_validator ifaceBare envOk tcW { entityType := "TABLE" }
      handlerOk (fun _ => Except.ok "42") rfl rfl rfl).2 "42" rfl

/-- C8: the augmentation never disturbs the caller-supplied parameters:
the new list is exactly the old list with the single `runtimeParams` entry
appended at the end, so every existing entry keeps its name, value and
position, and nothing is overwritten or removed. -/
theorem c8_augmentation_preserves_params (i : Interface) (env : RunEnv)
    (tc : TestCase) (td : TestDefinition) (handler : TestHandlerCls)
    (f : TestCase → Except PyErr String) (json : String)
    (h1 : env.get_by_id tc.testDefinitionId = Except.ok td)
    (h2 : env.test_case_class_importer td.entityType "sqlalchemy"
            tc.testDefinitionFQN = Except.ok handler)
    (h3 : handler.runtime_parameter_setter = some f)
    (h4 : f tc = Except.ok json) :
    ((run_test_case i env tc).test_case).parameterValues
        = tc.parameterValues ++ [{ name := "runtimeParams", value := json }] ∧
    ((run_test_case i env tc).test_case).parameterValues.take tc.parameterValues.length
        = tc.parameterValues ∧
    ((run_test_case i env tc).test_case).parameterValues.length
        = tc.parameterValues.length + 1 ∧
    (∀ k, k < tc.parameterValues.length →
        ((run_test_case i env tc).test_case).parameterValues[k]?
          = tc.parameterValues[k]?) := by
  have hb := run_test_case_body_setter_ok i env tc td handler f json h1 h2 h3 h4
  have ht : (run_test_case i env tc).test_case = augmentTestCase tc json := by
    rw [run_test_case_test_case_eq, hb, construct_and_validate_test_case]
  rw [ht]
  unfold augmentTestCase
  refine ⟨rfl, ?_, by simp, ?_⟩
  · exact List.take_left _ _
  · intro k hk
    simp [List.getElem?_append, hk]

/-- Witness for C8 at the same concrete successful run. -/
theorem c8_witness :
    ((run_test_case ifaceBare envOk tcW).test_case).parameterValues
        = tcW.parameterValues ++ [{ name := "runtimeParams", value := "42" }] ∧
    ((run_test_case ifaceBare envOk tcW).test_case).parameterValues.take
        tcW.parameterValues.length = tcW.parameterValues ∧
    ((run_test_case ifaceBare envOk tcW).test_case).parameterValues.length
        = tcW.parameterValues.length + 1 ∧
    (∀ k, k < tcW.parameterValues.length →
        ((run_test_case ifaceBare envOk tcW).test_case).parameterValues[k]?
          = tcW.parameterValues[k]?) :=
  c8_augmentation_preserves_params ifaceBare envOk tcW { entityType := "TABLE" }
    handlerOk (fun _ => Except.ok "42") "42" rfl rfl rfl rfl

end SQATestSuite

namespace SQATestSuite

/-- C2: on any successfully constructed interface the sample was drawn
exactly once (during construction: the draw counter is 1 and the cache is
filled), the runner holds exactly that sample — so every test case run
through the runner sees the same row set — every access to the `sample`
accessor returns that same sample without re-drawing or changing any
state, and `run_test_case` never reassigns anything on the instance. -/
theorem c2_sample_drawn_once_and_stable (env : ConstructEnv) (i : Interface)
    (h : (construct env).1 = Except.ok i) :
    ∃ s smp,
      i._sampler = some s ∧ s.drawCount = 1 ∧ s.cached = some smp ∧
      (∃ r, i._runner = some r ∧ r.runner.sample = smp) ∧
      sample_prop i = (Except.ok smp, i) ∧
      (∀ n, sample_iter i n = (Except.ok smp, i)) ∧
      (∀ env2 tc, (run_test_case i env2 tc).iface = i) := by
  unfold construct at h
  rcases hs : env.create_and_bind_session with e | sess
  · rw [hs] at h; simp at h
  · rw [hs] at h
    simp only at h
    rcases hf : env.sampler_factory_create sess env.convert_table_to_orm_object
        env.get_table_config with e | draws
    · rw [hf] at h; simp at h
    · rw [hf] at h
      simp [random_sample] at h
      subst h
      refine ⟨_, _, rfl, rfl, rfl, ⟨_, rfl, rfl⟩, rfl, ?_,
        fun env2 tc => run_test_case_iface_eq _ env2 tc⟩
      intro n
      induction n with
      | zero => rfl
      | succ n ih =>
          show sample_prop (sample_iter _ n).2 = _
          rw [ih]
          rfl

/-- Connection environment on which construction fully succeeds. -/
def envC : ConstructEnv :=
  { create_and_bind_session := Except.ok { sid := 7, isOpen := true },
    convert_table_to_orm_object := { name := "orders" },
    get_table_config := { table_sample_query := none, table_sample_config := none,
                          table_partition_config := none },
    sampler_factory_create := fun _ _ _ => Except.ok (fun _ => [1, 2, 3]) }

/-- The sampler state left behind by construction on `envC`. -/
def samplerC : SQASampler :=
  { draws := fun _ => [1, 2, 3], drawCount := 1, cached := some [1, 2, 3] }

/-- The bounded runner built by construction on `envC`. -/
def runnerC : BoundedRunner :=
  { runner := { session := { sid := 7, isOpen := true }, table := { name := "orders" },
                sample := [1, 2, 3], partition_details := none,
                profile_sample_query := none },
    timeoutSeconds := 600 }

/-- The interface instance `construct` yields on `envC`. -/
def ifaceC : Interface :=
  { session := { sid := 7, isOpen := true }, _table := { name := "orders" },
    config := { table_sample_query := none, table_sample_config := none,
                table_partition_config := none },
    _sampler := some samplerC, _runner := some runnerC }

/-- Witness for C2 on the concretely constructed instance. -/
theorem c2_witness :
    ∃ s smp,
      ifaceC._sampler = some s ∧ s.drawCount = 1 ∧ s.cached = some smp ∧
      (∃ r, ifaceC._runner = some r ∧ r.runner.sample = smp) ∧
      sample_prop ifaceC = (Except.ok smp, ifaceC) ∧
      (∀ n, sample_iter ifaceC n = (Except.ok smp, ifaceC)) ∧
      (∀ env2 tc, (run_test_case ifaceC env2 tc).iface = ifaceC) :=
  c2_sample_drawn_once_and_stable envC ifaceC (by rfl)

/-- C4: under the spec-stated failure modes of the collaborators (the
session opener fails only with `ConnectionError`, the sampler factory only
with `UnsupportedDialectError`), construction either returns an instance
whose table, sampler and runner are all present and whose `sample`
accessor succeeds, or raises one of those two errors; no partially-usable
instance is ever returned. -/
theorem c4_construction_total_or_error (env : ConstructEnv)
    (hconn : ∀ e, env.create_and_bind_session = Except.error e →
        e = PyErr.connectionError)
    (hdial : ∀ sess t c e, env.sampler_factory_create sess t c = Except.error e →
        e = PyErr.unsupportedDialectError) :
    (∀ i, (construct env).1 = Except.ok i →
        i._table = env.convert_table_to_orm_object ∧
        i._sampler.isSome = true ∧
        i._runner.isSome = true ∧
        (∃ smp, (sample_prop i).1 = Except.ok smp)) ∧
    (∀ e, (construct env).1 = Except.error e →
        e = PyErr.connectionError ∨ e = PyErr.unsupportedDialectError) := by
  constructor
  · intro i h
    unfold construct at h
    rcases hs : env.create_and_bind_session with e | sess
    · rw [hs] at h; simp at h
    · rw [hs] at h
      simp only at h
      rcases hf : env.sampler_factory_create sess env.convert_table_to_orm_object
          env.get_table_config with e | draws
      · rw [hf] at h; simp at h
      · rw [hf] at h
        simp [random_sample] at h
        subst h
        exact ⟨rfl, rfl, rfl, ⟨_, rfl⟩⟩
  · intro e h
    unfold construct at h
    rcases hs : env.create_and_bind_session with e0 | sess
    · rw [hs] at h
      simp at h
      subst h
      exact Or.inl (hconn _ hs)
    · rw [hs] at h
      simp only at h
      rcases hf : env.sampler_factory_create sess env.convert_table_to_orm_object
          env.get_table_config with e0 | draws
      · rw [hf] at h
        simp at h
        subst h
        exact Or.inr (hdial _ _ _ _ hf)
      · rw [hf] at h
        simp [random_sample] at h

/-- Witness for C4 on the concrete successful environment. -/
theorem c4_witness :
    ifaceC._table = envC.convert_table_to_orm_object ∧
    ifaceC._sampler.isSome = true ∧
    ifaceC._runner.isSome = true ∧
    (∃ smp, (sample_prop ifaceC).1 = Except.ok smp) :=
  (c4_construction_total_or_error envC
      (fun e h => by simp [envC] at h)
      (fun sess t c e h => by simp [envC] at h)).1 ifaceC (by rfl)

/-- C5: the runner every constructed instance carries is wrapped with the
ten-minute wall-clock bound (`TEN_MIN`, 600 seconds), every call through
it that exceeds the bound fails with `TimeoutError` carrying no result,
and every call within the bound returns its value. -/
theorem c5_runner_ten_minute_timeout (env : ConstructEnv) (i : Interface)
    (h : (construct env).1 = Except.ok i) :
    ∃ r, i._runner = some r ∧ r.timeoutSeconds = TEN_MIN ∧ TEN_MIN = 10 * 60 ∧
      (∀ q, TEN_MIN < q.duration →
          execute_call r q = Except.error PyErr.timeoutError) ∧
      (∀ q, q.duration ≤ TEN_MIN → execute_call r q = Except.ok q.value) := by
  unfold construct at h
  rcases hs : env.create_and_bind_session with e | sess
  · rw [hs] at h; simp at h
  · rw [hs] at h
    simp only at h
    rcases hf : env.sampler_factory_create sess env.convert_table_to_orm_object
        env.get_table_config with e | draws
    · rw [hf] at h; simp at h
    · rw [hf] at h
      simp [random_sample] at h
      subst h
      refine ⟨_, rfl, rfl, rfl, ?_, ?_⟩
      · intro q hq
        simp [execute_call, cls_timeout, hq]
      · intro q hq
        have hn : ¬ TEN_MIN < q.duration := Nat.not_lt.mpr hq
        simp [execute_call, cls_timeout, hn]

/-- Witness for C5: the concrete runner times a 601-second call out and
lets a 600-second call through. -/
theorem c5_witness :
    ∃ r, ifaceC._runner = some r ∧ r.timeoutSeconds = TEN_MIN ∧
      execute_call r { duration := 601, value := 5 } = Except.error PyErr.timeoutError ∧
      execute_call r { duration := 600, value := 5 } = Except.ok 5 := by
  obtain ⟨r, hr, ht, _, hlong, hshort⟩ := c5_runner_ten_minute_timeout envC ifaceC (by rfl)
  exact ⟨r, hr, ht, hlong _ (by decide), hshort _ (by decide)⟩

/-- Connection environment where the session opens but the sampler factory
then fails with `UnsupportedDialectError` — the failing input for C6. -/
def envLeak : ConstructEnv :=
  { create_and_bind_session := Except.ok { sid := 7, isOpen := true },
    convert_table_to_orm_object := { name := "orders" },
    get_table_config := { table_sample_query := none, table_sample_config := none,
                          table_partition_config := none },
    sampler_factory_create := fun _ _ _ => Except.error PyErr.unsupportedDialectError }

/-- C6 evaluated at its failing input: when sampler creation fails after
the session was opened, `__init__` raises without releasing the session —
one session opened, none closed, and no instance exists to own it.  The
constructor has no handler around lines 61 to 70, so this exit path leaks
the session, contradicting the claimed guaranteed release. -/
theorem c6_session_leaked_on_mid_construction_failure :
    (construct envLeak).1 = Except.error PyErr.unsupportedDialectError ∧
    (construct envLeak).2.openedSessions = 1 ∧
    (construct envLeak).2.closedSessions = 0 :=
  ⟨rfl, rfl, rfl⟩

end SQATestSuite

namespace SQATestSuite

/-- The body of `run_test_case` reads the interface only through its
`runner` attribute (line 183); two instances with the same runner behave
identically. -/
lemma run_test_case_body_runner_congr (i j : Interface) (h : i._runner = j._runner)
    (env : RunEnv) (tc : TestCase) :
    run_test_case_body i env tc = run_test_case_body j env tc := by
  unfold run_test_case_body construct_and_validate
  rw [h]

/-- Ledger state after one construction on `envC`. -/
def w0 : World := { openedSessions := 1, closedSessions := 0 }

/-- Counterexample to C9 as stated: a concrete instance whose session has
been released still executes the next test case to completion —
`run_test_case` returns a result, validation ran, and no error (in
particular no `InvalidStateError`) is raised. -/
theorem c9_counterexample_closed_instance_runs :
    ((close_interface ifaceC w0).1).session.isOpen = false ∧
    ((close_interface ifaceC w0).2).closedSessions = 1 ∧
    (run_test_case (close_interface ifaceC w0).1 envOk tcW).result
      = Except.ok { status := "Success" } ∧
    Event.ranValidation ∈ (run_test_case (close_interface ifaceC w0).1 envOk tcW).events ∧
    (∀ e, (run_test_case (close_interface ifaceC w0).1 envOk tcW).result
        ≠ Except.error e) := by
  refine ⟨rfl, rfl, rfl, ?_, ?_⟩
  · have hev : (run_test_case (close_interface ifaceC w0).1 envOk tcW).events
        = [Event.resolvedHandler, Event.ranSetter, Event.appendedParams,
           Event.constructedValidator (augmentTestCase tcW "42") 1000,
           Event.ranValidation] := rfl
    rw [hev]
    simp
  · intro e h
    have hres : (run_test_case (close_interface ifaceC w0).1 envOk tcW).result
        = Except.ok { status := "Success" } := rfl
    rw [hres] at h
    exact absurd h (by simp)

/-- C9 amended: `run_test_case` performs no closed-state check at all.  A
call on an instance whose session was released behaves exactly as on the
open instance — same result, same test-case mutation, same events, same
log — and its outcome is always either a result or the uniform
`RuntimeError` wrapper, never `InvalidStateError`. -/
theorem c9_no_closed_state_check (i : Interface) (w : World) (env : RunEnv)
    (tc : TestCase) :
    (run_test_case (close_interface i w).1 env tc).result
      = (run_test_case i env tc).result ∧
    (run_test_case (close_interface i w).1 env tc).test_case
      = (run_test_case i env tc).test_case ∧
    (run_test_case (close_interface i w).1 env tc).events
      = (run_test_case i env tc).events ∧
    (run_test_case (close_interface i w).1 env tc).log
      = (run_test_case i env tc).log ∧
    ((∃ r2, (run_test_case (close_interface i w).1 env tc).result = Except.ok r2) ∨
     (∃ c, (run_test_case (close_interface i w).1 env tc).result
        = Except.error (PyErr.runtimeError c))) := by
  have hb : run_test_case_body (close_interface i w).1 env tc
      = run_test_case_body i env tc :=
    run_test_case_body_runner_congr _ i rfl env tc
  rcases hB : run_test_case_body i env tc with ⟨res, tc1, ev⟩
  have hb2 : run_test_case_body (close_interface i w).1 env tc = (res, tc1, ev) := by
    rw [hb, hB]
  cases res with
  | ok r =>
      refine ⟨?_, ?_, ?_, ?_, Or.inl ⟨r, ?_⟩⟩ <;> simp [run_test_case, hb2, hB]
  | error e =>
      refine ⟨?_, ?_, ?_, ?_, Or.inr ⟨e, ?_⟩⟩ <;> simp [run_test_case, hb2, hB]

/-- C10: `run_test_case` is not atomic in its `test_case` argument.  When
the setter succeeds but a later step raises, the appended `runtimeParams`
entry stays on the caller's test case even though the call failed; running
the same (already mutated) test case again through a succeeding setter
appends a second `runtimeParams` entry, leaving two of them. -/
theorem c10_mutation_persists_after_failure (i : Interface) (env : RunEnv)
    (tc : TestCase) (td : TestDefinition) (handler : TestHandlerCls)
    (f : TestCase → Except PyErr String) (j1 j2 : String) (e : PyErr)
    (h1 : env.get_by_id tc.testDefinitionId = Except.ok td)
    (h2 : env.test_case_class_importer td.entityType "sqlalchemy"
            tc.testDefinitionFQN = Except.ok handler)
    (h3 : handler.runtime_parameter_setter = some f)
    (h4 : f tc = Except.ok j1)
    (h5 : (run_test_case_body i env tc).1 = Except.error e)
    (h6 : f (augmentTestCase tc j1) = Except.ok j2) :
    (run_test_case i env tc).result = Except.error (PyErr.runtimeError e) ∧
    (run_test_case i env tc).test_case = augmentTestCase tc j1 ∧
    (run_test_case i env (augmentTestCase tc j1)).test_case.parameterValues
      = tc.parameterValues ++ [{ name := "runtimeParams", value := j1 }]
        ++ [{ name := "runtimeParams", value := j2 }] ∧
    countRuntimeParams ((run_test_case i env (augmentTestCase tc j1)).test_case)
      = countRuntimeParams tc + 2 := by
  have ht1 : (run_test_case i env tc).test_case = augmentTestCase tc j1 := by
    rw [run_test_case_test_case_eq,
        run_test_case_body_setter_ok i env tc td handler f j1 h1 h2 h3 h4,
        construct_and_validate_test_case]
  have ht2 : (run_test_case i env (augmentTestCase tc j1)).test_case
      = augmentTestCase (augmentTestCase tc j1) j2 := by
    rw [run_test_case_test_case_eq,
        run_test_case_body_setter_ok i env (augmentTestCase tc j1) td handler f j2
          h1 h2 h3 h6,
        construct_and_validate_test_case]
  refine ⟨(run_test_case_of_body_error i env tc e h5).1, ht1, ?_, ?_⟩
  · rw [ht2]
    rfl
  · rw [ht2, countRuntimeParams_augment, countRuntimeParams_augment]

/-- A validator class whose setter succeeds but whose construction always
raises. -/
def handlerFail : TestHandlerCls :=
  { runtime_parameter_setter := some (fun _ => Except.ok "42"),
    construct := fun _ _ _ => Except.error (PyErr.validatorError "boom") }

/-- Catalog and resolver where everything resolves to `handlerFail`. -/
def envFailConstruct : RunEnv :=
  { get_by_id := fun _ => Except.ok { entityType := "TABLE" },
    test_case_class_importer := fun _ _ _ => Except.ok handlerFail,
    now := 1000 }

/-- Witness for C10 on a concrete failing run followed by a re-run. -/
theorem c10_witness :
    (run_test_case ifaceBare envFailConstruct tcW).result
      = Except.error (PyErr.runtimeError (PyErr.validatorError "boom")) ∧
    (run_test_case ifaceBare envFailConstruct tcW).test_case
      = augmentTestCase tcW "42" ∧
    (run_test_case ifaceBare envFailConstruct (augmentTestCase tcW "42")).test_case.parameterValues
      = tcW.parameterValues ++ [{ name := "runtimeParams", value := "42" }]
        ++ [{ name := "runtimeParams", value := "42" }] ∧
    countRuntimeParams
        ((run_test_case ifaceBare envFailConstruct (augmentTestCase tcW "42")).test_case)
      = countRuntimeParams tcW + 2 :=
  c10_mutation_persists_after_failure ifaceBare envFailConstruct tcW
    { entityType := "TABLE" } handlerFail (fun _ => Except.ok "42") "42" "42"
    (PyErr.validatorError "boom") rfl rfl rfl rfl (by rfl) rfl

end SQATestSuite
